import Mathlib

/-!
Shallow embedding of the xapcppcore-audioio library (PortAudio-based audio
capture/playback) and verification of its specification claims.

The embedding translates `src/src/error.cc`, `src/src/device.cc` and
`src/src/recorder.cc` (which also carries `player.cc`), together with the
public headers, into pure Lean functions.  External effects are made
explicit parameters:

* PortAudio calls are modelled by a backend value carrying each call's
  result (`PaHost` for the device queries, `PaStreamBackend` for the
  stream construction calls, plain `Int` results for start/stop);
* mutex acquisition by a `lockFail : Option String` parameter
  (`some msg` means the `std::lock_guard` constructor threw
  `std::system_error` with that message);
* user-registered `std::function` slots by `Option` of a Lean closure
  whose result carries the C++ exception the closure may throw;
* a thrown C++ exception by an `Option`/`Except` result.

C++ semantics that the source relies on implicitly and that the embedding
makes explicit: invoking an empty `std::function` throws
`std::bad_function_call` (a subclass of `std::exception`), and a `catch`
chain dispatches on the dynamic class of the thrown object in source
order.
-/

namespace XapAudio

/-! ## Error taxonomy (`include/xap/audioio/error.h`, `src/error.cc`) -/

/-- Error code `5001` from `error.h`. -/
def ERROR_PARAMETER : Nat := 5001

/-- Error code `5002` from `error.h`. -/
def ERROR_PORTAUDIOCALL : Nat := 5002

/-- Error code `5003` from `error.h`. -/
def ERROR_ALLOC : Nat := 5003

/-- Error code `5004` from `error.h`. -/
def ERROR_SYSTEMCALL : Nat := 5004

/-- Modelled from the spec: the revision of `error.h` in the repository
snapshot only defines codes 5001..5004, yet `recorder.cc`/`device.cc` use
five further categories that the spec's closed taxonomy names.  They are
modelled as further distinct `uint16` values.  State-machine transition
attempted from the wrong state. -/
def ERROR_INVALIDOPERATION : Nat := 5005

/-- Modelled from the spec: requested format rejected by the backend
dry-run (missing from the snapshot's `error.h`, named by the spec). -/
def ERROR_UNSUPPORTED : Nat := 5006

/-- Modelled from the spec: exception escaped a user-registered closure
(missing from the snapshot's `error.h`, named by the spec). -/
def ERROR_CALLBACK : Nat := 5007

/-- Modelled from the spec: no default device available (missing from the
snapshot's `error.h`, named by the spec). -/
def ERROR_NODEVICE : Nat := 5008

/-- Modelled from the spec: any other exception caught at a trampoline
boundary (missing from the snapshot's `error.h`, named by the spec). -/
def ERROR_UNEXPECTED : Nat := 5009

/-- `xap::audioio::Exception` (`error.cc` lines 26-76): carrier pairing a
message with a `uint16` category code. -/
structure Exception where
  m_message : String
  m_code : Nat
deriving Repr, DecidableEq

/-- `Exception::what()` (`error.cc` line 64): returns the stored message. -/
def Exception.what (e : Exception) : String := e.m_message

/-- `Exception::get_code()` (`error.cc` line 74): returns the stored code. -/
def Exception.get_code (e : Exception) : Nat := e.m_code

/-- The copy constructor `Exception::Exception(const Exception &src)`
(`error.cc` lines 40-45): copies `m_message` and `m_code`. -/
def Exception.copy (src : Exception) : Exception :=
  { m_message := src.m_message, m_code := src.m_code }

/-- The universe of C++ exceptions relevant to this code base.  All are
subclasses of `std::exception`; the `catch` chains in the source
distinguish `xap::core::buffer::BufferException`, `xap::audioio::Exception`
and `std::system_error`; every other `std::exception` (such as
`std::bad_alloc` or `std::bad_function_call`) is `stdExc`. -/
inductive CppError where
  | bufferExc (msg : String)
  | audioExc (e : Exception)
  | systemError (msg : String)
  | stdExc (msg : String)
deriving Repr, DecidableEq

/-- `what()` of a C++ exception object. -/
def CppError.what : CppError → String
  | .bufferExc m => m
  | .audioExc e => e.m_message
  | .systemError m => m
  | .stdExc m => m

/-- The `what()` text of `std::bad_function_call`, thrown when an empty
`std::function` is invoked. -/
def bad_function_call_what : String := "bad_function_call"

/-! ## PortAudio primitives -/

/-- `paNoError`. -/
def paNoError : Int := 0

/-- `paContinue` (the stream-callback result telling PortAudio to keep
streaming). -/
def paContinue : Int := 0

/-- `paNoDevice` (`-1`). -/
def paNoDevice : Int := -1

/-- `Pa_GetErrorText`: backend-provided text for an error code, modelled
abstractly as a function of the code. -/
def Pa_GetErrorText (e : Int) : String := "PaError " ++ toString e

/-- `pacall_assert` (`error.cc` lines 87-94): throws
`Exception(Pa_GetErrorText(error), ERROR_PORTAUDIOCALL)` unless the
PortAudio call returned `paNoError`. -/
def pacall_assert (error : Int) : Except Exception Unit :=
  if error ≠ paNoError then
    .error ⟨Pa_GetErrorText error, ERROR_PORTAUDIOCALL⟩
  else
    .ok ()

/-! ## Byte buffers (`xap::core::buffer::Buffer`, external collaborator)

The buffer utility is an external collaborator (spec section 6): a
copy-owning byte container constructible from a raw pointer plus a length,
or as an empty pre-sized buffer.  Raw memory regions are modelled as
`List Nat` of byte values. -/

/-- `xap::core::buffer::Buffer`: a byte container. -/
structure Buffer where
  bytes : List Nat
deriving Repr, DecidableEq

/-- `Buffer::get_length()`-style size of the container. -/
def Buffer.size (b : Buffer) : Nat := b.bytes.length

/-- `Buffer(ptr, len)`: copy-owning construction from a raw region,
copying `len` bytes starting at the pointer. -/
def Buffer.fromPtr (src : List Nat) (len : Nat) : Buffer :=
  ⟨src.take len⟩

/-- `Buffer(len, false)`: an uninitialized pre-sized buffer of `len`
bytes (contents unspecified; modelled as zeros, no claim inspects them
before the user closure fills the buffer). -/
def Buffer.presized (len : Nat) : Buffer :=
  ⟨List.replicate len 0⟩

/-- `memcpy(dst, src, n)` on raw regions: the first `n` bytes of `dst`
are replaced by the first `n` bytes of `src`. -/
def memcpy (dst src : List Nat) (n : Nat) : List Nat :=
  src.take n ++ dst.drop n

/-! ## Callback emit paths (`recorder.cc` lines 235-290, 801-856)

Each emit acquires the slot's mutex, invokes the stored `std::function`,
and re-wraps escaping exceptions via the `catch` chain
`catch (std::system_error)` then `catch (std::exception)`.  The result
`some e` / `.error e` means the emit threw `xap::audioio::Exception e`;
`none` / `.ok` means it returned normally. -/

/-- The re-wrap performed by the emit functions' `catch` chain: a
`std::system_error` becomes `ERROR_SYSTEMCALL`, any other `std::exception`
becomes `ERROR_CALLBACK`, message preserved via `what()`. -/
def emit_wrap (exc : CppError) : Exception :=
  match exc with
  | .systemError m => ⟨m, ERROR_SYSTEMCALL⟩
  | e => ⟨e.what, ERROR_CALLBACK⟩

/-- `Recorder::emit_audio_callback` (`recorder.cc` lines 235-254).
`slot` is the `m_audio_callback` slot: `none` when no callback was ever
registered (an empty `std::function`, whose invocation throws
`std::bad_function_call`); the user closure's result is the C++ exception
it throws, if any. -/
def Recorder.emit_audio_callback (lockFail : Option String)
    (slot : Option (Buffer → Option CppError)) (data : Buffer) :
    Option Exception :=
  match lockFail with
  | some m => some ⟨m, ERROR_SYSTEMCALL⟩
  | none =>
    match slot with
    | none => some ⟨bad_function_call_what, ERROR_CALLBACK⟩
    | some cb =>
      match cb data with
      | none => none
      | some exc => some (emit_wrap exc)

/-- `Recorder::emit_error_callback` (`recorder.cc` lines 271-290) and the
textually identical `Player::emit_error_callback` (lines 837-856). -/
def emit_error_callback (lockFail : Option String)
    (slot : Option (Exception → Option CppError)) (e : Exception) :
    Option Exception :=
  match lockFail with
  | some m => some ⟨m, ERROR_SYSTEMCALL⟩
  | none =>
    match slot with
    | none => some ⟨bad_function_call_what, ERROR_CALLBACK⟩
    | some cb =>
      match cb e with
      | none => none
      | some exc => some (emit_wrap exc)

/-- `Player::emit_audio_callback` (`recorder.cc` lines 801-820): the user
closure receives the staged buffer by mutable reference and fills it; its
result is either the filled buffer or the C++ exception it throws. -/
def Player.emit_audio_callback (lockFail : Option String)
    (slot : Option (Buffer → Except CppError Buffer)) (data : Buffer) :
    Except Exception Buffer :=
  match lockFail with
  | some m => .error ⟨m, ERROR_SYSTEMCALL⟩
  | none =>
    match slot with
    | none => .error ⟨bad_function_call_what, ERROR_CALLBACK⟩
    | some cb =>
      match cb data with
      | .ok b => .ok b
      | .error exc => .error (emit_wrap exc)

/-! ## Stream state machine (`recorder.cc` lines 120-131, 200-214,
684-695, 765-780)

The stream object's mutable state relevant to start/stop is the
`m_is_running` flag.  A method returns the post-call object state paired
with the `xap::audioio::Exception` it threw, if any (throwing leaves the
object state as it was at the throw point). -/

/-- The `Recorder` object's running flag. -/
structure RecorderState where
  m_is_running : Bool
deriving Repr, DecidableEq

/-- The `Player` object's running flag. -/
structure PlayerState where
  m_is_running : Bool
deriving Repr, DecidableEq

/-- `Recorder::start` (`recorder.cc` lines 120-131).  `paStart` is the
result `Pa_StartStream` would return. -/
def Recorder.start (paStart : Int) (s : RecorderState) :
    RecorderState × Option Exception :=
  if s.m_is_running then
    (s, some ⟨"The recorder was already running.", ERROR_INVALIDOPERATION⟩)
  else
    match pacall_assert paStart with
    | .error e => (s, some e)
    | .ok _ => ({ m_is_running := true }, none)

/-- `Recorder::stop` (`recorder.cc` lines 200-214).  `paAbort`/`paStop`
are the results `Pa_AbortStream`/`Pa_StopStream` would return. -/
def Recorder.stop (forcibly : Bool) (paAbort paStop : Int)
    (s : RecorderState) : RecorderState × Option Exception :=
  if !s.m_is_running then
    (s, some ⟨"The recorder is not running.", ERROR_INVALIDOPERATION⟩)
  else
    match pacall_assert (if forcibly then paAbort else paStop) with
    | .error e => (s, some e)
    | .ok _ => ({ m_is_running := false }, none)

/-- `Player::start` (`recorder.cc` lines 684-695). -/
def Player.start (paStart : Int) (s : PlayerState) :
    PlayerState × Option Exception :=
  if s.m_is_running then
    (s, some ⟨"The player was already running.", ERROR_INVALIDOPERATION⟩)
  else
    match pacall_assert paStart with
    | .error e => (s, some e)
    | .ok _ => ({ m_is_running := true }, none)

/-- `Player::stop` (`recorder.cc` lines 765-780). -/
def Player.stop (forcibly : Bool) (paAbort paStop : Int)
    (s : PlayerState) : PlayerState × Option Exception :=
  if !s.m_is_running then
    (s, some ⟨"The player is not running.", ERROR_INVALIDOPERATION⟩)
  else
    match pacall_assert (if forcibly then paAbort else paStop) with
    | .error e => (s, some e)
    | .ok _ => ({ m_is_running := false }, none)

/-! ## Real-time trampolines (`recorder.cc` lines 457-498 and 1032-1066)

The environment of one trampoline invocation: the outcome of the staging
`Buffer` construction (`bufferCtor = some exc` means the constructor threw
`exc`; the record path constructs `Buffer(input, frames * 2)`, the play
path `Buffer(frames * 2, false)`), the two lock outcomes and the two
callback slots of the stream object the opaque `user_data` pointer
recovers.  The outcome records the status returned to PortAudio (`ret`),
the C++ exception that escaped the trampoline if any (`escaped`), and the
`xap::audioio::Exception` value handed to the error-emit path if the
cycle redirected one (`redirected`). -/

/-- Environment of one capture trampoline invocation. -/
structure RecordEnv where
  bufferCtor : Option CppError
  audioLockFail : Option String
  audioSlot : Option (Buffer → Option CppError)
  errorLockFail : Option String
  errorSlot : Option (Exception → Option CppError)
  input : List Nat

/-- Outcome of one capture trampoline invocation. -/
structure RecordOutcome where
  ret : Option Int
  escaped : Option CppError
  redirected : Option Exception
deriving Repr, DecidableEq

/-- The buffer the capture trampoline hands to the audio-data emit path
(`recorder.cc` lines 467-470): `Buffer(input_buffer, frames_per_buffer * 2)`
— the comment in the source reads `//  16-bit`. -/
def record_callback_audio_data (input : List Nat) (frames : Nat) : Buffer :=
  Buffer.fromPtr input (frames * 2)

/-- `xap_pa_record_callback` (`recorder.cc` lines 457-498).

The `try` body constructs the staging buffer and calls
`emit_audio_callback`.  The `catch` chain, in source order:
`BufferException` → redirect as `ERROR_ALLOC` — this redirection is NOT
wrapped in an inner `try`, so an exception thrown by
`emit_error_callback` escapes the trampoline; `xap::audioio::Exception` →
redirect, inner `try` swallows a second-level failure;
`std::exception` → redirect as `ERROR_UNEXPECTED`, inner `try` swallows a
second-level failure.  On a normal path the trampoline returns
`paContinue`. -/
def xap_pa_record_callback (env : RecordEnv) (frames : Nat) :
    RecordOutcome :=
  match env.bufferCtor with
  | some (.bufferExc m) =>
    let e : Exception := ⟨m, ERROR_ALLOC⟩
    match emit_error_callback env.errorLockFail env.errorSlot e with
    | none => ⟨some paContinue, none, some e⟩
    | some e2 => ⟨none, some (.audioExc e2), some e⟩
  | some (.audioExc e) =>
    let _ := emit_error_callback env.errorLockFail env.errorSlot e
    ⟨some paContinue, none, some e⟩
  | some exc =>
    let e : Exception := ⟨exc.what, ERROR_UNEXPECTED⟩
    let _ := emit_error_callback env.errorLockFail env.errorSlot e
    ⟨some paContinue, none, some e⟩
  | none =>
    match Recorder.emit_audio_callback env.audioLockFail env.audioSlot
        (record_callback_audio_data env.input frames) with
    | none => ⟨some paContinue, none, none⟩
    | some e =>
      let _ := emit_error_callback env.errorLockFail env.errorSlot e
      ⟨some paContinue, none, some e⟩

/-- Environment of one playback trampoline invocation. -/
structure PlayEnv where
  bufferCtor : Option CppError
  audioLockFail : Option String
  audioSlot : Option (Buffer → Except CppError Buffer)
  errorLockFail : Option String
  errorSlot : Option (Exception → Option CppError)

/-- Outcome of one playback trampoline invocation; `out` is the content
of the backend-provided output region after the cycle. -/
structure PlayOutcome where
  ret : Option Int
  escaped : Option CppError
  redirected : Option Exception
  out : List Nat
deriving Repr, DecidableEq

/-- The byte length the playback trampoline stages
(`recorder.cc` line 1043): `frames_per_buffer * 2U`. -/
def play_callback_datalen (frames : Nat) : Nat := frames * 2

/-- `xap_pa_play_callback` (`recorder.cc` lines 1032-1066).

The `try` body stages `Buffer(datalen, false)`, calls
`emit_audio_callback` so the user closure fills it, and `memcpy`s the
filled contents into the backend's output region.  The `catch` chain, in
source order: `BufferException` → redirect as `ERROR_ALLOC` (inner `try`
swallows second-level failures); `xap::audioio::Exception` → redirect
(inner `try` swallows second-level failures).  There is no
`std::exception` arm: any other exception thrown inside the `try` body
escapes the trampoline uncaught. -/
def xap_pa_play_callback (env : PlayEnv) (frames : Nat) (out : List Nat) :
    PlayOutcome :=
  match env.bufferCtor with
  | some (.bufferExc m) =>
    let e : Exception := ⟨m, ERROR_ALLOC⟩
    let _ := emit_error_callback env.errorLockFail env.errorSlot e
    ⟨some paContinue, none, some e, out⟩
  | some (.audioExc e) =>
    let _ := emit_error_callback env.errorLockFail env.errorSlot e
    ⟨some paContinue, none, some e, out⟩
  | some exc =>
    ⟨none, some exc, none, out⟩
  | none =>
    let datalen := play_callback_datalen frames
    let data := Buffer.presized datalen
    match Player.emit_audio_callback env.audioLockFail env.audioSlot data with
    | .error e =>
      let _ := emit_error_callback env.errorLockFail env.errorSlot e
      ⟨some paContinue, none, some e, out⟩
    | .ok filled =>
      ⟨some paContinue, none, none, memcpy out filled.bytes datalen⟩

/-! ## Stream construction and factories (`recorder.cc` lines 34-86,
332-398, 601-650, 898-973) -/

/-- Results of the PortAudio calls a stream constructor performs. -/
structure PaStreamBackend where
  initResult : Int
  formatSupported : Int
  openResult : Int
deriving Repr, DecidableEq

/-- Outcome of a stream constructor: the exception it threw, if any, and
whether `Pa_OpenStream` was reached. -/
structure CtorOutcome where
  thrown : Option Exception
  openAttempted : Bool
deriving Repr, DecidableEq

/-- `Recorder::Recorder` (`recorder.cc` lines 34-86): `Pa_Initialize`,
then the `Pa_IsFormatSupported` dry run — rejection throws
`ERROR_UNSUPPORTED` before any stream is opened — then `Pa_OpenStream`. -/
def Recorder.construct (b : PaStreamBackend) : CtorOutcome :=
  match pacall_assert b.initResult with
  | .error e => ⟨some e, false⟩
  | .ok _ =>
    if b.formatSupported ≠ paNoError then
      ⟨some ⟨Pa_GetErrorText b.formatSupported, ERROR_UNSUPPORTED⟩, false⟩
    else
      match pacall_assert b.openResult with
      | .error e => ⟨some e, true⟩
      | .ok _ => ⟨none, true⟩

/-- `Player::Player` (`recorder.cc` lines 601-650): same call sequence as
`Recorder::Recorder` with the parameters on the output side. -/
def Player.construct (b : PaStreamBackend) : CtorOutcome :=
  match pacall_assert b.initResult with
  | .error e => ⟨some e, false⟩
  | .ok _ =>
    if b.formatSupported ≠ paNoError then
      ⟨some ⟨Pa_GetErrorText b.formatSupported, ERROR_UNSUPPORTED⟩, false⟩
    else
      match pacall_assert b.openResult with
      | .error e => ⟨some e, true⟩
      | .ok _ => ⟨none, true⟩

/-- The `what()` text of `std::bad_alloc`. -/
def bad_alloc_what : String := "std::bad_alloc"

/-- `RecorderFactory::load_unique_pointer` (`recorder.cc` lines 332-341):
`new Recorder(options)` inside a `try` whose single `catch` arm is
`catch (xap::audioio::Exception&)`, rethrown as `ERROR_ALLOC` — so every
exception the constructor throws reaches the caller re-coded as
`ERROR_ALLOC`, while a `std::bad_alloc` from `new` is not caught at all.
`allocFail` models the `new` expression failing to allocate.  The result
is the exception the caller observes (`none` on success). -/
def RecorderFactory.load_unique_pointer (allocFail : Bool)
    (b : PaStreamBackend) : Option CppError :=
  if allocFail then some (.stdExc bad_alloc_what)
  else
    match (Recorder.construct b).thrown with
    | some e => some (.audioExc ⟨e.what, ERROR_ALLOC⟩)
    | none => none

/-- `RecorderFactory::new_instance` (`recorder.cc` lines 390-398):
`catch (std::bad_alloc&)` → `ERROR_ALLOC`; a constructor exception
reaches the caller unchanged. -/
def RecorderFactory.new_instance (allocFail : Bool)
    (b : PaStreamBackend) : Option CppError :=
  if allocFail then some (.audioExc ⟨bad_alloc_what, ERROR_ALLOC⟩)
  else
    match (Recorder.construct b).thrown with
    | some e => some (.audioExc e)
    | none => none

/-- `PlayerFactory::load_unique_pointer` (`recorder.cc` lines 898-910):
`catch (std::bad_alloc&)` → `ERROR_ALLOC`; a constructor exception
reaches the caller unchanged. -/
def PlayerFactory.load_unique_pointer (allocFail : Bool)
    (b : PaStreamBackend) : Option CppError :=
  if allocFail then some (.audioExc ⟨bad_alloc_what, ERROR_ALLOC⟩)
  else
    match (Player.construct b).thrown with
    | some e => some (.audioExc e)
    | none => none

/-! ## Device manager (`device.cc`)

The PortAudio device database is modelled by `PaHost`: the result of
`Pa_GetDeviceCount`, the info table (`Pa_GetDeviceInfo` returns `NULL`
for an index outside the table, in particular for any negative index),
and the results of the two default-device queries.  Latency values
(seconds, `double` in PortAudio) are carried as `Rat`; no claim performs
arithmetic on them — they are only copied — so the carrier is exact.
Allocation while building the result vector is assumed to succeed
(no claim concerns `ERROR_ALLOC` on this path). -/

/-- `PaDeviceInfo`: the backend's per-device record. -/
structure PaDeviceInfo where
  name : String
  maxInputChannels : Int
  maxOutputChannels : Int
  defaultLowInputLatency : Rat
  defaultHighInputLatency : Rat
  defaultLowOutputLatency : Rat
  defaultHighOutputLatency : Rat
deriving Repr, DecidableEq

/-- The PortAudio host as seen by `device.cc`. -/
structure PaHost where
  deviceCount : Int
  deviceInfos : List PaDeviceInfo
  defaultInputDevice : Int
  defaultOutputDevice : Int
deriving Repr, DecidableEq

/-- `Pa_GetDeviceInfo`: `NULL` (`none`) outside the device table. -/
def Pa_GetDeviceInfo (h : PaHost) (i : Int) : Option PaDeviceInfo :=
  if i < 0 then none else h.deviceInfos[i.toNat]?

/-- `xap::audioio::InputDevice` (`device.h`): `device_id`, `name`, the
two latency fields (the second spelled `defalut_high_latency` in the
source) and `is_default`. -/
structure InputDevice where
  device_id : Int
  name : String
  default_low_latency : Rat
  defalut_high_latency : Rat
  is_default : Bool
deriving Repr, DecidableEq

/-- `xap::audioio::OutputDevice` (`device.h`): identical field set. -/
structure OutputDevice where
  device_id : Int
  name : String
  default_low_latency : Rat
  defalut_high_latency : Rat
  is_default : Bool
deriving Repr, DecidableEq

/-- One iteration of the `load_all_input_devices` loop (`device.cc` lines
155-169): skip the index when `Pa_GetDeviceInfo` returns `NULL` or the
info reports `maxInputChannels == 0`; otherwise build the device record.
The latency fields are copied from `defaultLowOutputLatency` /
`defaultHighOutputLatency` — the output-direction fields — exactly as
lines 166-167 of the source do. -/
def input_device_at (h : PaHost) (i : Nat) : Option InputDevice :=
  match Pa_GetDeviceInfo h ((i : Int)) with
  | none => none
  | some info =>
    if info.maxInputChannels = 0 then none
    else some {
      device_id := (i : Int),
      name := info.name,
      default_low_latency := info.defaultLowOutputLatency,
      defalut_high_latency := info.defaultHighOutputLatency,
      is_default := decide ((i : Int) = h.defaultInputDevice) }

/-- One iteration of the `load_all_output_devices` loop (`device.cc`
lines 230-244): mirror of `input_device_at` with `maxOutputChannels`, the
default output device, and the output-direction latency fields. -/
def output_device_at (h : PaHost) (i : Nat) : Option OutputDevice :=
  match Pa_GetDeviceInfo h ((i : Int)) with
  | none => none
  | some info =>
    if info.maxOutputChannels = 0 then none
    else some {
      device_id := (i : Int),
      name := info.name,
      default_low_latency := info.defaultLowOutputLatency,
      defalut_high_latency := info.defaultHighOutputLatency,
      is_default := decide ((i : Int) = h.defaultOutputDevice) }

/-- `DeviceManager::load_all_input_devices` (`device.cc` lines 129-183):
take the lock, query the device count and the default input device
(failing with `ERROR_PORTAUDIOCALL` on a negative count or a default
below `paNoDevice`), then run the `input_device_at` loop over all
indices. -/
def DeviceManager.load_all_input_devices (lockFail : Option String)
    (h : PaHost) : Except Exception (List InputDevice) :=
  match lockFail with
  | some m => .error ⟨m, ERROR_SYSTEMCALL⟩
  | none =>
    if h.deviceCount < 0 then
      .error ⟨Pa_GetErrorText h.deviceCount, ERROR_PORTAUDIOCALL⟩
    else if h.defaultInputDevice < paNoDevice then
      .error ⟨Pa_GetErrorText h.defaultInputDevice, ERROR_PORTAUDIOCALL⟩
    else
      .ok ((List.range h.deviceCount.toNat).filterMap (input_device_at h))

/-- `DeviceManager::load_all_output_devices` (`device.cc` lines 203-258):
mirror of the input loader over the `output_device_at` loop. -/
def DeviceManager.load_all_output_devices (lockFail : Option String)
    (h : PaHost) : Except Exception (List OutputDevice) :=
  match lockFail with
  | some m => .error ⟨m, ERROR_SYSTEMCALL⟩
  | none =>
    if h.deviceCount < 0 then
      .error ⟨Pa_GetErrorText h.deviceCount, ERROR_PORTAUDIOCALL⟩
    else if h.defaultOutputDevice < paNoDevice then
      .error ⟨Pa_GetErrorText h.defaultOutputDevice, ERROR_PORTAUDIOCALL⟩
    else
      .ok ((List.range h.deviceCount.toNat).filterMap (output_device_at h))

/-- `DeviceManager::load_default_input_device` (`device.cc` lines
281-321): `ERROR_NODEVICE` when the backend reports `paNoDevice`,
`ERROR_PORTAUDIOCALL` when the info lookup returns `NULL`; otherwise a
device with `is_default = true` whose latency fields are copied from
`defaultLowInputLatency` / `defaultHighInputLatency` — the
input-direction fields, lines 307-308 of the source. -/
def DeviceManager.load_default_input_device (lockFail : Option String)
    (h : PaHost) : Except Exception InputDevice :=
  match lockFail with
  | some m => .error ⟨m, ERROR_SYSTEMCALL⟩
  | none =>
    if h.defaultInputDevice = paNoDevice then
      .error ⟨"There is no default input device.", ERROR_NODEVICE⟩
    else
      match Pa_GetDeviceInfo h h.defaultInputDevice with
      | none =>
        .error ⟨"Cannot get default output device info.", ERROR_PORTAUDIOCALL⟩
      | some info =>
        .ok {
          device_id := h.defaultInputDevice,
          name := info.name,
          default_low_latency := info.defaultLowInputLatency,
          defalut_high_latency := info.defaultHighInputLatency,
          is_default := true }

/-- `DeviceManager::load_default_output_device` (`device.cc` lines
344-386): mirror of the input lookup with the output default and the
output-direction latency fields. -/
def DeviceManager.load_default_output_device (lockFail : Option String)
    (h : PaHost) : Except Exception OutputDevice :=
  match lockFail with
  | some m => .error ⟨m, ERROR_SYSTEMCALL⟩
  | none =>
    if h.defaultOutputDevice = paNoDevice then
      .error ⟨"There is no default output device.", ERROR_NODEVICE⟩
    else
      match Pa_GetDeviceInfo h h.defaultOutputDevice with
      | none =>
        .error ⟨"Cannot get default output device info.", ERROR_PORTAUDIOCALL⟩
      | some info =>
        .ok {
          device_id := h.defaultOutputDevice,
          name := info.name,
          default_low_latency := info.defaultLowOutputLatency,
          defalut_high_latency := info.defaultHighOutputLatency,
          is_default := true }

/-- `true` exactly for a `std::system_error` object. -/
def CppError.isSystemError : CppError → Bool
  | .systemError _ => true
  | _ => false

/-- `true` exactly for a `xap::core::buffer::BufferException` object. -/
def CppError.isBufferExc : CppError → Bool
  | .bufferExc _ => true
  | _ => false

/-- `true` exactly for a `xap::audioio::Exception` object. -/
def CppError.isAudioExc : CppError → Bool
  | .audioExc _ => true
  | _ => false

/-! ## Claim theorems -/

/-- C10: an `Exception` constructed from `(m, c)` satisfies `what() = m`
and `get_code() = c`, and copy-constructing an `Exception` preserves both
the message and the code, so error categories survive the copies made on
the trampoline redirection paths. -/
theorem exception_preserves_message_and_code :
    ∀ (m : String) (c : Nat),
      (Exception.mk m c).what = m ∧
      (Exception.mk m c).get_code = c ∧
      ∀ e : Exception,
        (Exception.copy e).what = e.what ∧
        (Exception.copy e).get_code = e.get_code ∧
        Exception.copy e = e :=
  fun _ _ => ⟨rfl, rfl, fun _ => ⟨rfl, rfl, rfl⟩⟩

/-- C1: for every stream (recorder or player), `start()` while the stream
is Running throws `ERROR_INVALIDOPERATION` and leaves the state Running,
and `stop()` while the stream is Idle throws `ERROR_INVALIDOPERATION` and
leaves the state Idle — for any backend call results and either value of
`forcibly`. -/
theorem start_stop_wrong_state_invalid_operation
    (paStart paAbort paStop : Int) (forcibly : Bool)
    (sR sI : RecorderState) (pR pI : PlayerState)
    (hsR : sR.m_is_running = true) (hsI : sI.m_is_running = false)
    (hpR : pR.m_is_running = true) (hpI : pI.m_is_running = false) :
    Recorder.start paStart sR =
      (sR, some ⟨"The recorder was already running.", ERROR_INVALIDOPERATION⟩) ∧
    Recorder.stop forcibly paAbort paStop sI =
      (sI, some ⟨"The recorder is not running.", ERROR_INVALIDOPERATION⟩) ∧
    Player.start paStart pR =
      (pR, some ⟨"The player was already running.", ERROR_INVALIDOPERATION⟩) ∧
    Player.stop forcibly paAbort paStop pI =
      (pI, some ⟨"The player is not running.", ERROR_INVALIDOPERATION⟩) := by
  refine ⟨?_, ?_, ?_, ?_⟩ <;>
    simp [Recorder.start, Recorder.stop, Player.start, Player.stop,
      hsR, hsI, hpR, hpI]

/-- Witness for C1 at concrete states and backend results. -/
theorem start_stop_wrong_state_invalid_operation_witness :
    Recorder.start 0 ⟨true⟩ =
      (⟨true⟩, some ⟨"The recorder was already running.", ERROR_INVALIDOPERATION⟩) ∧
    Recorder.stop false 0 0 ⟨false⟩ =
      (⟨false⟩, some ⟨"The recorder is not running.", ERROR_INVALIDOPERATION⟩) ∧
    Player.start 0 ⟨true⟩ =
      (⟨true⟩, some ⟨"The player was already running.", ERROR_INVALIDOPERATION⟩) ∧
    Player.stop false 0 0 ⟨false⟩ =
      (⟨false⟩, some ⟨"The player is not running.", ERROR_INVALIDOPERATION⟩) :=
  start_stop_wrong_state_invalid_operation 0 0 0 false
    ⟨true⟩ ⟨false⟩ ⟨true⟩ ⟨false⟩ rfl rfl rfl rfl

/-- C3 counterexample: emitting the audio-data callback with an empty
slot is NOT a silent no-op — invoking the empty `std::function` throws
`std::bad_function_call`, which the emit's `catch (std::exception)` arm
re-wraps, so the emit raises an error (of category `ERROR_CALLBACK`)
instead of returning normally. -/
theorem emit_empty_slot_noop_counterexample :
    ¬ (Recorder.emit_audio_callback none none (Buffer.presized 4) = none) := by
  decide

/-- C3 amended: for every emit of the audio-data or error callback from
the real-time path, an empty callback slot makes the emit raise a
callback-category (`ERROR_CALLBACK`) error (the `std::bad_function_call`
re-wrap), not a silent no-op; an exception escaping a registered user
closure is re-wrapped into `ERROR_CALLBACK`, except a
`std::system_error`, which is re-wrapped into `ERROR_SYSTEMCALL`. -/
theorem emit_empty_slot_and_closure_exception_wrap
    (data : Buffer) (e : Exception) (cb : Buffer → Option CppError)
    (exc : CppError) (hcb : cb data = some exc) :
    Recorder.emit_audio_callback none none data =
      some ⟨bad_function_call_what, ERROR_CALLBACK⟩ ∧
    Player.emit_audio_callback none none data =
      .error ⟨bad_function_call_what, ERROR_CALLBACK⟩ ∧
    emit_error_callback none none e =
      some ⟨bad_function_call_what, ERROR_CALLBACK⟩ ∧
    Recorder.emit_audio_callback none (some cb) data = some (emit_wrap exc) ∧
    (exc.isSystemError = false → emit_wrap exc = ⟨exc.what, ERROR_CALLBACK⟩) ∧
    (∀ m, emit_wrap (.systemError m) = ⟨m, ERROR_SYSTEMCALL⟩) := by
  refine ⟨rfl, rfl, rfl, ?_, ?_, fun m => rfl⟩
  · simp [Recorder.emit_audio_callback, hcb]
  · intro hsys
    cases exc <;> simp_all [CppError.isSystemError, emit_wrap, CppError.what]

/-- Witness for C3 (amended) at a concrete buffer, error value and
closure. -/
theorem emit_empty_slot_and_closure_exception_wrap_witness :
    Recorder.emit_audio_callback none none (Buffer.presized 2) =
      some ⟨bad_function_call_what, ERROR_CALLBACK⟩ ∧
    Player.emit_audio_callback none none (Buffer.presized 2) =
      .error ⟨bad_function_call_what, ERROR_CALLBACK⟩ ∧
    emit_error_callback none none ⟨"x", ERROR_ALLOC⟩ =
      some ⟨bad_function_call_what, ERROR_CALLBACK⟩ ∧
    Recorder.emit_audio_callback none
        (some fun _ => some (.stdExc "boom")) (Buffer.presized 2) =
      some (emit_wrap (.stdExc "boom")) ∧
    ((CppError.stdExc "boom").isSystemError = false →
      emit_wrap (.stdExc "boom") =
        ⟨(CppError.stdExc "boom").what, ERROR_CALLBACK⟩) ∧
    (∀ m, emit_wrap (.systemError m) = ⟨m, ERROR_SYSTEMCALL⟩) :=
  emit_empty_slot_and_closure_exception_wrap (Buffer.presized 2)
    ⟨"x", ERROR_ALLOC⟩ (fun _ => some (.stdExc "boom")) (.stdExc "boom") rfl

/-- C9: for every playback cycle in which the user audio closure fails,
the copy of the staged buffer into the backend-provided output region is
not performed — the region is returned exactly as it was — the error is
handed to the error-emit path, and the trampoline still returns
`paContinue`. -/
theorem play_closure_failure_skips_copy_and_redirects
    (env : PlayEnv) (frames : Nat) (out : List Nat)
    (cb : Buffer → Except CppError Buffer) (exc : CppError)
    (hctor : env.bufferCtor = none)
    (hlock : env.audioLockFail = none)
    (hslot : env.audioSlot = some cb)
    (hfail : cb (Buffer.presized (play_callback_datalen frames)) = .error exc) :
    xap_pa_play_callback env frames out =
      ⟨some paContinue, none, some (emit_wrap exc), out⟩ := by
  simp [xap_pa_play_callback, hctor, Player.emit_audio_callback,
    hlock, hslot, hfail]

/-- Environment for the C9 witness: a playback cycle whose user closure
throws. -/
def envPlayFail : PlayEnv :=
  ⟨none, none, some fun _ => .error (.stdExc "boom"), none, none⟩

/-- Witness for C9 at a concrete cycle: the output region `[9, 9, 9, 9]`
is untouched and the wrapped closure error is redirected. -/
theorem play_closure_failure_skips_copy_and_redirects_witness :
    xap_pa_play_callback envPlayFail 2 [9, 9, 9, 9] =
      ⟨some paContinue, none, some ⟨"boom", ERROR_CALLBACK⟩, [9, 9, 9, 9]⟩ := by
  have h := play_closure_failure_skips_copy_and_redirects envPlayFail 2
    [9, 9, 9, 9] (fun _ => .error (.stdExc "boom")) (.stdExc "boom")
    rfl rfl rfl rfl
  simpa [emit_wrap, CppError.what] using h

/-- C4 counterexample: for a stream configured with `channel_count = 2`
and `frames_per_buffer = 1`, the backend's input region holds
`1 * 2 * 2 = 4` bytes of interleaved 16-bit PCM, but the buffer the
capture trampoline constructs is sized `frames * 2 = 2` bytes — not
`frames * bytes_per_frame = 4`. -/
theorem callback_buffer_size_counterexample :
    ¬ ((record_callback_audio_data [1, 2, 3, 4] 1).size = 1 * (2 * 2)) := by
  decide

/-- C4 amended: for every callback cycle, the buffer handed to the
audio-data callback (capture) and the buffer staged for the user closure
(playback) have length `frames_per_buffer * 2` bytes — two bytes per
frame regardless of `channel_count` — and that equals the claimed
`frames * (2 * channel_count)` exactly when `channel_count = 1` (or the
cycle is empty). -/
theorem callback_buffer_sized_two_bytes_per_frame
    (frames cc : Nat) (input : List Nat)
    (hinput : input.length = frames * cc * 2) (hcc : 1 ≤ cc) :
    (record_callback_audio_data input frames).size = frames * 2 ∧
    play_callback_datalen frames = frames * 2 ∧
    ((record_callback_audio_data input frames).size = frames * (2 * cc) ↔
      cc = 1 ∨ frames = 0) := by
  have hle : frames * 2 ≤ frames * cc * 2 := by
    calc frames * 2 = frames * 1 * 2 := by ring
    _ ≤ frames * cc * 2 :=
        Nat.mul_le_mul_right 2 (Nat.mul_le_mul_left frames hcc)
  have hsize : (record_callback_audio_data input frames).size = frames * 2 := by
    simp [record_callback_audio_data, Buffer.fromPtr, Buffer.size, hinput]
    omega
  refine ⟨hsize, rfl, ?_⟩
  rw [hsize]
  constructor
  · intro h
    rcases Nat.eq_zero_or_pos frames with hf | hf
    · right; exact hf
    · left
      have h2 : 2 = 2 * cc := Nat.eq_of_mul_eq_mul_left hf h
      omega
  · rintro (rfl | rfl) <;> ring

/-- Witness for C4 (amended): a mono stream, two frames per buffer, four
backend input bytes. -/
theorem callback_buffer_sized_two_bytes_per_frame_witness :
    (record_callback_audio_data [1, 2, 3, 4] 2).size = 2 * 2 ∧
    play_callback_datalen 2 = 2 * 2 ∧
    ((record_callback_audio_data [1, 2, 3, 4] 2).size = 2 * (2 * 1) ↔
      1 = 1 ∨ 2 = 0) :=
  callback_buffer_sized_two_bytes_per_frame 2 1 [1, 2, 3, 4]
    (by decide) (by decide)

/-- C5: at a backend whose format dry-run rejects the requested format
(result `-9997`, `paInvalidChannelCount`), the `Recorder` constructor
itself throws `ERROR_UNSUPPORTED` without attempting `Pa_OpenStream`, and
`PlayerFactory::load_unique_pointer` and `RecorderFactory::new_instance`
deliver that `ERROR_UNSUPPORTED` to the caller — but
`RecorderFactory::load_unique_pointer` catches the
`xap::audioio::Exception` and rethrows it re-coded as `ERROR_ALLOC`, so
its caller never sees the unsupported-format category. -/
theorem recorder_factory_recodes_unsupported_as_alloc :
    Recorder.construct ⟨0, -9997, 0⟩ =
      ⟨some ⟨Pa_GetErrorText (-9997), ERROR_UNSUPPORTED⟩, false⟩ ∧
    Player.construct ⟨0, -9997, 0⟩ =
      ⟨some ⟨Pa_GetErrorText (-9997), ERROR_UNSUPPORTED⟩, false⟩ ∧
    PlayerFactory.load_unique_pointer false ⟨0, -9997, 0⟩ =
      some (.audioExc ⟨Pa_GetErrorText (-9997), ERROR_UNSUPPORTED⟩) ∧
    RecorderFactory.new_instance false ⟨0, -9997, 0⟩ =
      some (.audioExc ⟨Pa_GetErrorText (-9997), ERROR_UNSUPPORTED⟩) ∧
    RecorderFactory.load_unique_pointer false ⟨0, -9997, 0⟩ =
      some (.audioExc ⟨Pa_GetErrorText (-9997), ERROR_ALLOC⟩) := by
  decide

/-- Environment for C2: a capture cycle whose staging-buffer construction
throws `BufferException` while the error-callback slot is empty. -/
def envRecordEscape : RecordEnv :=
  ⟨some (.bufferExc "stage alloc failed"), none, none, none, none, []⟩

/-- C2: the capture trampoline's `BufferException` arm redirects to the
error-callback path without an inner `try`, so when that redirection
itself throws (here: empty error slot, `std::bad_function_call` re-wrapped
as `ERROR_CALLBACK`), the exception propagates past the trampoline
boundary and no `paContinue` status is returned — the second-level
failure is not silently dropped. -/
theorem record_trampoline_lets_second_level_failure_escape :
    xap_pa_record_callback envRecordEscape 4 =
      ⟨none, some (.audioExc ⟨bad_function_call_what, ERROR_CALLBACK⟩),
        some ⟨"stage alloc failed", ERROR_ALLOC⟩⟩ := by
  decide

/-- C8 counterexample: a playback cycle in which the staging-buffer
construction throws a plain `std::exception` (here `std::bad_alloc`,
neither a `BufferException` nor an `xap::audioio::Exception`): the
playback trampoline has no `std::exception` arm, so nothing is redirected
as `ERROR_UNEXPECTED` — the exception escapes the trampoline instead. -/
theorem play_trampoline_unexpected_counterexample :
    ¬ ((xap_pa_play_callback
          ⟨some (.stdExc bad_alloc_what), none, none, none, none⟩ 4 []).redirected =
        some ⟨bad_alloc_what, ERROR_UNEXPECTED⟩ ∧
       (xap_pa_play_callback
          ⟨some (.stdExc bad_alloc_what), none, none, none, none⟩ 4 []).escaped =
        none) := by
  decide

/-- C8 amended: an exception caught at the trampoline boundary that is
neither an audio-io exception nor a buffer exception is redirected to the
error callback as `ERROR_UNEXPECTED` by the CAPTURE trampoline only; the
playback trampoline has no handler for such exceptions, which therefore
propagate past it uncaught. -/
theorem unexpected_exception_redirect_capture_only
    (renv : RecordEnv) (penv : PlayEnv) (frames : Nat) (out : List Nat)
    (exc : CppError)
    (hr : renv.bufferCtor = some exc) (hp : penv.bufferCtor = some exc)
    (hb : exc.isBufferExc = false) (ha : exc.isAudioExc = false) :
    xap_pa_record_callback renv frames =
      ⟨some paContinue, none, some ⟨exc.what, ERROR_UNEXPECTED⟩⟩ ∧
    xap_pa_play_callback penv frames out = ⟨none, some exc, none, out⟩ := by
  cases exc <;>
    simp_all [CppError.isBufferExc, CppError.isAudioExc,
      xap_pa_record_callback, xap_pa_play_callback, CppError.what]

/-- Witness for C8 (amended) at concrete capture/playback environments
whose staging-buffer construction throws `std::bad_alloc`. -/
theorem unexpected_exception_redirect_capture_only_witness :
    xap_pa_record_callback
        ⟨some (.stdExc bad_alloc_what), none, none, none, none, []⟩ 4 =
      ⟨some paContinue, none,
        some ⟨(CppError.stdExc bad_alloc_what).what, ERROR_UNEXPECTED⟩⟩ ∧
    xap_pa_play_callback
        ⟨some (.stdExc bad_alloc_what), none, none, none, none⟩ 4 [7, 7] =
      ⟨none, some (.stdExc bad_alloc_what), none, [7, 7]⟩ :=
  unexpected_exception_redirect_capture_only
    ⟨some (.stdExc bad_alloc_what), none, none, none, none, []⟩
    ⟨some (.stdExc bad_alloc_what), none, none, none, none⟩
    4 [7, 7] (.stdExc bad_alloc_what) rfl rfl rfl rfl

/-- A device whose input-direction latencies (7, 9) differ from its
output-direction latencies (3, 4). -/
def micInfo : PaDeviceInfo := ⟨"mic", 2, 0, 7, 9, 3, 4⟩

/-- A host with one input-capable device which is the default input
device; no output device exists. -/
def micHost : PaHost := ⟨1, [micInfo], 0, paNoDevice⟩

/-- C7: at `micHost`, input-device enumeration populates
`default_low_latency`/`defalut_high_latency` with the device's
OUTPUT-direction latencies (3, 4) — `device.cc` lines 166-167 read
`info->defaultLowOutputLatency` / `info->defaultHighOutputLatency` — while
the default-input-device lookup on the same host returns the
input-direction values (7, 9) from lines 307-308.  The enumeration path
therefore contradicts the claim that every returned input device carries
the backend's input-direction latency values. -/
theorem input_enumeration_copies_output_latencies :
    DeviceManager.load_all_input_devices none micHost =
      .ok [⟨0, "mic", 3, 4, true⟩] ∧
    DeviceManager.load_default_input_device none micHost =
      .ok ⟨0, "mic", 7, 9, true⟩ ∧
    micInfo.defaultLowInputLatency = 7 ∧
    micInfo.defaultHighInputLatency = 9 :=
  ⟨rfl, rfl, rfl, rfl⟩

/-- A host with one device, capable in both directions, but whose
backend reports `paNoDevice` for both default-device queries. -/
def noDefaultHost : PaHost := ⟨1, [⟨"duplex", 1, 1, 7, 9, 3, 4⟩], paNoDevice, paNoDevice⟩

/-- C6 counterexample: at `noDefaultHost` (the backend reports
`paNoDevice` as the default input device) the input-device enumeration
call SUCCEEDS — the guard only rejects defaults strictly below
`paNoDevice` — and returns the one input-capable device with
`is_default = false`, so the returned sequence does not contain exactly
one entry with `is_default = true`, refuting the claim for this call. -/
theorem enumeration_unique_default_counterexample :
    DeviceManager.load_all_input_devices none noDefaultHost =
      .ok [⟨0, "duplex", 3, 4, false⟩] ∧
    ¬ (([(⟨0, "duplex", 3, 4, false⟩ : InputDevice)].countP
        fun d => d.is_default) = 1) :=
  ⟨rfl, by decide⟩

/-! Helper lemmas for the enumeration claim. -/

theorem filterMap_range_singleton {α : Type} (f : Nat → Option α) (n d : Nat)
    (v : α) (hd : d < n) (hfd : f d = some v)
    (hne : ∀ i, i < n → i ≠ d → f i = none) :
    (List.range n).filterMap f = [v] := by
  induction n with
  | zero => omega
  | succ n ih =>
    rw [List.range_succ, List.filterMap_append]
    by_cases hdn : d = n
    · subst hdn
      have h1 : (List.range d).filterMap f = [] := by
        refine List.filterMap_eq_nil_iff.mpr fun a ha => ?_
        have hal := List.mem_range.mp ha
        exact hne a (by omega) (by omega)
      simp [h1, hfd]
    · have h1 : (List.range n).filterMap f = [v] := by
        refine ih (by omega) fun i hi hid => hne i (by omega) hid
      have h2 : f n = none := hne n (by omega) (by omega)
      simp [h1, h2]

theorem filterMap_range_membership {α : Type} (F : Nat → Option α) (n : Nat)
    (did : α → Int) (hF : ∀ i x, F i = some x → did x = (i : Int)) (i : Nat) :
    (∃ x ∈ (List.range n).filterMap F, did x = (i : Int)) ↔
      (i < n ∧ (F i).isSome) := by
  constructor
  · rintro ⟨x, hx, hxi⟩
    rcases List.mem_filterMap.mp hx with ⟨j, hj, hFj⟩
    have hji : (j : Int) = (i : Int) := by rw [← hF j x hFj, hxi]
    have hji' : j = i := by exact_mod_cast hji
    subst hji'
    exact ⟨List.mem_range.mp hj, by simp [hFj]⟩
  · rintro ⟨hi, hs⟩
    rcases Option.isSome_iff_exists.mp hs with ⟨x, hx⟩
    exact ⟨x, List.mem_filterMap.mpr ⟨i, List.mem_range.mpr hi, hx⟩, hF i x hx⟩

theorem filterMap_range_unique_default {α : Type} (F : Nat → Option α)
    (n : Nat) (did : α → Int) (isdef : α → Bool) (d : Nat) (v : α)
    (hd : d < n) (hFd : F d = some v) (hvid : did v = (d : Int))
    (hvdef : isdef v = true)
    (hother : ∀ i x, i < n → F i = some x → i ≠ d → isdef x = false) :
    ((((List.range n).filterMap F).filter fun a => isdef a).map did) =
      [(d : Int)] := by
  rw [List.filter_filterMap, List.map_filterMap]
  refine filterMap_range_singleton _ n d ((d : Int)) hd ?_ ?_
  · simp only [hFd]
    simp only [Option.filter, hvdef, if_true, Option.map_some]
    exact congrArg some hvid
  · intro i hi hne
    cases hFi : F i with
    | none => simp [hFi]
    | some x => simp [hFi, hother i x hi hFi hne]

theorem Pa_GetDeviceInfo_ofNat (h : PaHost) (i : Nat)
    (hi : i < h.deviceInfos.length) :
    Pa_GetDeviceInfo h ((i : Int)) = some h.deviceInfos[i] := by
  unfold Pa_GetDeviceInfo
  rw [if_neg (by simp [Int.ofNat_eq_natCast])]
  have h2 : ((i : Int)).toNat = i := by simp [Int.ofNat_eq_natCast]
  rw [h2]
  simp [List.getElem?_eq_getElem, hi]

theorem input_device_at_id (h : PaHost) :
    ∀ i x, input_device_at h i = some x → x.device_id = (i : Int) := by
  intro i x hx
  cases hInfo : Pa_GetDeviceInfo h ((i : Int)) with
  | none => simp [input_device_at, hInfo] at hx
  | some info =>
    simp only [input_device_at, hInfo] at hx
    by_cases hch : info.maxInputChannels = 0
    · rw [if_pos hch] at hx; cases hx
    · rw [if_neg hch] at hx
      injection hx with hx
      rw [← hx]

theorem output_device_at_id (h : PaHost) :
    ∀ i x, output_device_at h i = some x → x.device_id = (i : Int) := by
  intro i x hx
  cases hInfo : Pa_GetDeviceInfo h ((i : Int)) with
  | none => simp [output_device_at, hInfo] at hx
  | some info =>
    simp only [output_device_at, hInfo] at hx
    by_cases hch : info.maxOutputChannels = 0
    · rw [if_pos hch] at hx; cases hx
    · rw [if_neg hch] at hx
      injection hx with hx
      rw [← hx]

/-- `Pa_GetDeviceInfo` returning non-`NULL` means the queried index is
nonnegative and inside the device table, and the info is that entry. -/
theorem Pa_GetDeviceInfo_some_elim (h : PaHost) (d : Int)
    (info : PaDeviceInfo) (hinfo : Pa_GetDeviceInfo h d = some info) :
    0 ≤ d ∧ ∃ hLt : d.toNat < h.deviceInfos.length,
      info = h.deviceInfos[d.toNat] ∧ ((d.toNat : Int)) = d := by
  unfold Pa_GetDeviceInfo at hinfo
  by_cases hd : d < 0
  · rw [if_pos hd] at hinfo; cases hinfo
  · rw [if_neg hd] at hinfo
    rcases List.getElem?_eq_some_iff.mp hinfo with ⟨hLt, hEq⟩
    exact ⟨by omega, hLt, hEq.symm, Int.toNat_of_nonneg (by omega)⟩

/-- A successful input enumeration on a consistent backend returns the
`input_device_at` loop over all indices. -/
theorem load_all_input_devices_ok_elim (h : PaHost) (li : List InputDevice)
    (hcount : h.deviceCount = (h.deviceInfos.length : Int))
    (hok : DeviceManager.load_all_input_devices none h = .ok li) :
    li = (List.range h.deviceInfos.length).filterMap (input_device_at h) := by
  have hc0 : ¬ (h.deviceCount < 0) := by
    rw [hcount]; simp [Int.ofNat_eq_natCast]
  have htoNat : h.deviceCount.toNat = h.deviceInfos.length := by
    rw [hcount]; simp [Int.ofNat_eq_natCast]
  simp only [DeviceManager.load_all_input_devices] at hok
  rw [if_neg hc0] at hok
  by_cases hg : h.defaultInputDevice < paNoDevice
  · rw [if_pos hg] at hok; cases hok
  · rw [if_neg hg, htoNat] at hok
    injection hok with hok
    exact hok.symm

/-- A successful output enumeration on a consistent backend returns the
`output_device_at` loop over all indices. -/
theorem load_all_output_devices_ok_elim (h : PaHost) (lo : List OutputDevice)
    (hcount : h.deviceCount = (h.deviceInfos.length : Int))
    (hok : DeviceManager.load_all_output_devices none h = .ok lo) :
    lo = (List.range h.deviceInfos.length).filterMap (output_device_at h) := by
  have hc0 : ¬ (h.deviceCount < 0) := by
    rw [hcount]; simp [Int.ofNat_eq_natCast]
  have htoNat : h.deviceCount.toNat = h.deviceInfos.length := by
    rw [hcount]; simp [Int.ofNat_eq_natCast]
  simp only [DeviceManager.load_all_output_devices] at hok
  rw [if_neg hc0] at hok
  by_cases hg : h.defaultOutputDevice < paNoDevice
  · rw [if_pos hg] at hok; cases hok
  · rw [if_neg hg, htoNat] at hok
    injection hok with hok
    exact hok.symm

/-- C6 amended: for every device-enumeration call on a consistent
backend (device count equal to the info-table size), in each direction:
every sequence the call returns contains exactly the device indices
whose backend info reports nonzero channel capability in the requested
direction; whenever the backend's reported default index for that
direction resolves to a device info with nonzero capability in that
direction, the sequence contains exactly one entry with
`is_default = true`, whose `device_id` matches that default index;
whenever it does not so resolve (`paNoDevice`, out of range, or
incapable), the sequence contains no default entry; and when the backend
reports `paNoDevice` the call nevertheless succeeds (with no default
entry). -/
theorem enumeration_membership_and_unique_default
    (h : PaHost)
    (hcount : h.deviceCount = (h.deviceInfos.length : Int)) :
    (∀ li, DeviceManager.load_all_input_devices none h = .ok li →
      (∀ i : Nat,
        (∃ d ∈ li, d.device_id = (i : Int)) ↔
          ∃ hi : i < h.deviceInfos.length,
            h.deviceInfos[i].maxInputChannels ≠ 0) ∧
      (∀ info, Pa_GetDeviceInfo h h.defaultInputDevice = some info →
        info.maxInputChannels ≠ 0 →
        ((li.filter fun d => d.is_default).map fun d => d.device_id) =
          [h.defaultInputDevice]) ∧
      ((∀ info, Pa_GetDeviceInfo h h.defaultInputDevice = some info →
          info.maxInputChannels = 0) →
        (li.filter fun d => d.is_default) = [])) ∧
    (h.defaultInputDevice = paNoDevice →
      ∃ li, DeviceManager.load_all_input_devices none h = .ok li ∧
        (li.filter fun d => d.is_default) = []) ∧
    (∀ lo, DeviceManager.load_all_output_devices none h = .ok lo →
      (∀ i : Nat,
        (∃ d ∈ lo, d.device_id = (i : Int)) ↔
          ∃ hi : i < h.deviceInfos.length,
            h.deviceInfos[i].maxOutputChannels ≠ 0) ∧
      (∀ info, Pa_GetDeviceInfo h h.defaultOutputDevice = some info →
        info.maxOutputChannels ≠ 0 →
        ((lo.filter fun d => d.is_default).map fun d => d.device_id) =
          [h.defaultOutputDevice]) ∧
      ((∀ info, Pa_GetDeviceInfo h h.defaultOutputDevice = some info →
          info.maxOutputChannels = 0) →
        (lo.filter fun d => d.is_default) = [])) ∧
    (h.defaultOutputDevice = paNoDevice →
      ∃ lo, DeviceManager.load_all_output_devices none h = .ok lo ∧
        (lo.filter fun d => d.is_default) = []) := by
  have hc0 : ¬ (h.deviceCount < 0) := by
    rw [hcount]; simp [Int.ofNat_eq_natCast]
  have htoNat : h.deviceCount.toNat = h.deviceInfos.length := by
    rw [hcount]; simp [Int.ofNat_eq_natCast]
  have hInMain : ∀ li, DeviceManager.load_all_input_devices none h = .ok li →
      (∀ i : Nat,
        (∃ d ∈ li, d.device_id = (i : Int)) ↔
          ∃ hi : i < h.deviceInfos.length,
            h.deviceInfos[i].maxInputChannels ≠ 0) ∧
      (∀ info, Pa_GetDeviceInfo h h.defaultInputDevice = some info →
        info.maxInputChannels ≠ 0 →
        ((li.filter fun d => d.is_default).map fun d => d.device_id) =
          [h.defaultInputDevice]) ∧
      ((∀ info, Pa_GetDeviceInfo h h.defaultInputDevice = some info →
          info.maxInputChannels = 0) →
        (li.filter fun d => d.is_default) = []) := by
    intro li hok
    have hli := load_all_input_devices_ok_elim h li hcount hok
    subst hli
    refine ⟨?_, ?_, ?_⟩
    · intro i
      rw [filterMap_range_membership (input_device_at h) h.deviceInfos.length
        (fun d => d.device_id) (input_device_at_id h) i]
      constructor
      · rintro ⟨hi, hs⟩
        refine ⟨hi, fun hzero => ?_⟩
        simp [input_device_at, Pa_GetDeviceInfo_ofNat h i hi, hzero] at hs
      · rintro ⟨hi, hch⟩
        exact ⟨hi, by simp [input_device_at, Pa_GetDeviceInfo_ofNat h i hi, hch]⟩
    · intro info hinfo hch
      rcases Pa_GetDeviceInfo_some_elim h h.defaultInputDevice info hinfo with
        ⟨hd0, hLt, hEqInfo, hofIn⟩
      subst hEqInfo
      rw [← hofIn]
      refine filterMap_range_unique_default (input_device_at h)
        h.deviceInfos.length (fun d => d.device_id) (fun d => d.is_default)
        h.defaultInputDevice.toNat
        { device_id := (h.defaultInputDevice.toNat : Int),
          name := h.deviceInfos[h.defaultInputDevice.toNat].name,
          default_low_latency :=
            h.deviceInfos[h.defaultInputDevice.toNat].defaultLowOutputLatency,
          defalut_high_latency :=
            h.deviceInfos[h.defaultInputDevice.toNat].defaultHighOutputLatency,
          is_default := decide ((h.defaultInputDevice.toNat : Int) =
            h.defaultInputDevice) }
        hLt ?_ rfl ?_ ?_
      · have hinfo2 := Pa_GetDeviceInfo_ofNat h h.defaultInputDevice.toNat hLt
        simp only [input_device_at, hinfo2]
        rw [if_neg hch]
      · simp [hofIn]
      · intro i x hi hx hne
        simp only [input_device_at, Pa_GetDeviceInfo_ofNat h i hi] at hx
        by_cases hch2 : h.deviceInfos[i].maxInputChannels = 0
        · rw [if_pos hch2] at hx; cases hx
        · rw [if_neg hch2] at hx
          injection hx with hx
          rw [← hx]
          simp only [decide_eq_false_iff_not]
          intro hEq
          apply hne
          omega
    · intro hbad
      refine List.filter_eq_nil_iff.mpr fun x hx hdef => ?_
      rcases List.mem_filterMap.mp hx with ⟨i, hiR, hFi⟩
      have hi := List.mem_range.mp hiR
      simp only [input_device_at, Pa_GetDeviceInfo_ofNat h i hi] at hFi
      by_cases hch : h.deviceInfos[i].maxInputChannels = 0
      · rw [if_pos hch] at hFi; cases hFi
      · rw [if_neg hch] at hFi
        injection hFi with hFi
        rw [← hFi] at hdef
        simp only [decide_eq_true_eq] at hdef
        refine hch (hbad h.deviceInfos[i] ?_)
        rw [← hdef]
        exact Pa_GetDeviceInfo_ofNat h i hi
  have hOutMain : ∀ lo, DeviceManager.load_all_output_devices none h = .ok lo →
      (∀ i : Nat,
        (∃ d ∈ lo, d.device_id = (i : Int)) ↔
          ∃ hi : i < h.deviceInfos.length,
            h.deviceInfos[i].maxOutputChannels ≠ 0) ∧
      (∀ info, Pa_GetDeviceInfo h h.defaultOutputDevice = some info →
        info.maxOutputChannels ≠ 0 →
        ((lo.filter fun d => d.is_default).map fun d => d.device_id) =
          [h.defaultOutputDevice]) ∧
      ((∀ info, Pa_GetDeviceInfo h h.defaultOutputDevice = some info →
          info.maxOutputChannels = 0) →
        (lo.filter fun d => d.is_default) = []) := by
    intro lo hok
    have hlo := load_all_output_devices_ok_elim h lo hcount hok
    subst hlo
    refine ⟨?_, ?_, ?_⟩
    · intro i
      rw [filterMap_range_membership (output_device_at h) h.deviceInfos.length
        (fun d => d.device_id) (output_device_at_id h) i]
      constructor
      · rintro ⟨hi, hs⟩
        refine ⟨hi, fun hzero => ?_⟩
        simp [output_device_at, Pa_GetDeviceInfo_ofNat h i hi, hzero] at hs
      · rintro ⟨hi, hch⟩
        exact ⟨hi, by simp [output_device_at, Pa_GetDeviceInfo_ofNat h i hi, hch]⟩
    · intro info hinfo hch
      rcases Pa_GetDeviceInfo_some_elim h h.defaultOutputDevice info hinfo with
        ⟨hd0, hLt, hEqInfo, hofOut⟩
      subst hEqInfo
      rw [← hofOut]
      refine filterMap_range_unique_default (output_device_at h)
        h.deviceInfos.length (fun d => d.device_id) (fun d => d.is_default)
        h.defaultOutputDevice.toNat
        { device_id := (h.defaultOutputDevice.toNat : Int),
          name := h.deviceInfos[h.defaultOutputDevice.toNat].name,
          default_low_latency :=
            h.deviceInfos[h.defaultOutputDevice.toNat].defaultLowOutputLatency,
          defalut_high_latency :=
            h.deviceInfos[h.defaultOutputDevice.toNat].defaultHighOutputLatency,
          is_default := decide ((h.defaultOutputDevice.toNat : Int) =
            h.defaultOutputDevice) }
        hLt ?_ rfl ?_ ?_
      · have hinfo2 := Pa_GetDeviceInfo_ofNat h h.defaultOutputDevice.toNat hLt
        simp only [output_device_at, hinfo2]
        rw [if_neg hch]
      · simp [hofOut]
      · intro i x hi hx hne
        simp only [output_device_at, Pa_GetDeviceInfo_ofNat h i hi] at hx
        by_cases hch2 : h.deviceInfos[i].maxOutputChannels = 0
        · rw [if_pos hch2] at hx; cases hx
        · rw [if_neg hch2] at hx
          injection hx with hx
          rw [← hx]
          simp only [decide_eq_false_iff_not]
          intro hEq
          apply hne
          omega
    · intro hbad
      refine List.filter_eq_nil_iff.mpr fun x hx hdef => ?_
      rcases List.mem_filterMap.mp hx with ⟨i, hiR, hFi⟩
      have hi := List.mem_range.mp hiR
      simp only [output_device_at, Pa_GetDeviceInfo_ofNat h i hi] at hFi
      by_cases hch : h.deviceInfos[i].maxOutputChannels = 0
      · rw [if_pos hch] at hFi; cases hFi
      · rw [if_neg hch] at hFi
        injection hFi with hFi
        rw [← hFi] at hdef
        simp only [decide_eq_true_eq] at hdef
        refine hch (hbad h.deviceInfos[i] ?_)
        rw [← hdef]
        exact Pa_GetDeviceInfo_ofNat h i hi
  have hInNo : h.defaultInputDevice = paNoDevice →
      ∃ li, DeviceManager.load_all_input_devices none h = .ok li ∧
        (li.filter fun d => d.is_default) = [] := by
    intro hnd
    have hok : DeviceManager.load_all_input_devices none h =
        .ok ((List.range h.deviceInfos.length).filterMap (input_device_at h)) := by
      simp only [DeviceManager.load_all_input_devices]
      rw [if_neg hc0, if_neg (by rw [hnd]; exact lt_irrefl _), htoNat]
    refine ⟨_, hok, (hInMain _ hok).2.2 fun info hinfo => ?_⟩
    rw [hnd] at hinfo
    unfold Pa_GetDeviceInfo at hinfo
    rw [if_pos (show paNoDevice < 0 by decide)] at hinfo
    cases hinfo
  have hOutNo : h.defaultOutputDevice = paNoDevice →
      ∃ lo, DeviceManager.load_all_output_devices none h = .ok lo ∧
        (lo.filter fun d => d.is_default) = [] := by
    intro hnd
    have hok : DeviceManager.load_all_output_devices none h =
        .ok ((List.range h.deviceInfos.length).filterMap (output_device_at h)) := by
      simp only [DeviceManager.load_all_output_devices]
      rw [if_neg hc0, if_neg (by rw [hnd]; exact lt_irrefl _), htoNat]
    refine ⟨_, hok, (hOutMain _ hok).2.2 fun info hinfo => ?_⟩
    rw [hnd] at hinfo
    unfold Pa_GetDeviceInfo at hinfo
    rw [if_pos (show paNoDevice < 0 by decide)] at hinfo
    cases hinfo
  exact ⟨hInMain, hInNo, hOutMain, hOutNo⟩

/-- A consistent two-device host: device 0 is input-capable and the
default input device, device 1 is output-capable and the default output
device. -/
def duplexHost : PaHost :=
  ⟨2, [⟨"mic", 1, 0, 7, 9, 3, 4⟩, ⟨"spk", 0, 2, 7, 9, 3, 4⟩], 0, 1⟩

/-- Witness for C6 (amended) at `duplexHost`, whose backend is
consistent. -/
theorem enumeration_membership_and_unique_default_witness :
    (∀ li, DeviceManager.load_all_input_devices none duplexHost = .ok li →
      (∀ i : Nat,
        (∃ d ∈ li, d.device_id = (i : Int)) ↔
          ∃ hi : i < duplexHost.deviceInfos.length,
            duplexHost.deviceInfos[i].maxInputChannels ≠ 0) ∧
      (∀ info,
        Pa_GetDeviceInfo duplexHost duplexHost.defaultInputDevice = some info →
        info.maxInputChannels ≠ 0 →
        ((li.filter fun d => d.is_default).map fun d => d.device_id) =
          [duplexHost.defaultInputDevice]) ∧
      ((∀ info,
          Pa_GetDeviceInfo duplexHost duplexHost.defaultInputDevice =
            some info →
          info.maxInputChannels = 0) →
        (li.filter fun d => d.is_default) = [])) ∧
    (duplexHost.defaultInputDevice = paNoDevice →
      ∃ li, DeviceManager.load_all_input_devices none duplexHost = .ok li ∧
        (li.filter fun d => d.is_default) = []) ∧
    (∀ lo, DeviceManager.load_all_output_devices none duplexHost = .ok lo →
      (∀ i : Nat,
        (∃ d ∈ lo, d.device_id = (i : Int)) ↔
          ∃ hi : i < duplexHost.deviceInfos.length,
            duplexHost.deviceInfos[i].maxOutputChannels ≠ 0) ∧
      (∀ info,
        Pa_GetDeviceInfo duplexHost duplexHost.defaultOutputDevice =
          some info →
        info.maxOutputChannels ≠ 0 →
        ((lo.filter fun d => d.is_default).map fun d => d.device_id) =
          [duplexHost.defaultOutputDevice]) ∧
      ((∀ info,
          Pa_GetDeviceInfo duplexHost duplexHost.defaultOutputDevice =
            some info →
          info.maxOutputChannels = 0) →
        (lo.filter fun d => d.is_default) = [])) ∧
    (duplexHost.defaultOutputDevice = paNoDevice →
      ∃ lo, DeviceManager.load_all_output_devices none duplexHost = .ok lo ∧
        (lo.filter fun d => d.is_default) = []) :=
  enumeration_membership_and_unique_default duplexHost rfl

end XapAudio
